import Mathlib

/-!
# Verification of the TTS generation job subsystem

A shallow embedding of the job/estimation subsystem of `src/apps/tts/start.py`
(Qwen3-TTS FastAPI server), together with proofs of the specification's claims
about it.

Modelling conventions:
* Python floats (timestamps, durations, audio samples) are modelled as exact
  rationals `ℚ`; float literals such as `0.1` become the rationals they denote.
* Python strings that are only stored, compared or concatenated are `String`;
  strings that are scanned character-by-character (`strip`, `split`, `lower`)
  are `List Char`.
* Python byte strings are `List Nat`.
* A raised exception is an `Except.error`; fallible endpoints return `Except`.
* Mutation of the global `model_state` / `_job_store` becomes explicit state
  passing; `time.time()` becomes an explicit timestamp argument.
-/

/-- The characters Python's `str.strip()` / `str.split()` treat as whitespace
(ASCII part). -/
def pyIsSpace (c : Char) : Bool :=
  c = ' ' || c = '\t' || c = '\n' || c = '\r' || c = '\x0b' || c = '\x0c'

/-- Python `s.strip()`: remove leading and trailing whitespace. -/
def pyStrip (s : List Char) : List Char :=
  ((s.dropWhile pyIsSpace).reverse.dropWhile pyIsSpace).reverse

/-- Python `s.split()` (no separator): split on runs of whitespace and drop
empty words. -/
def pySplitWhitespace (s : List Char) : List (List Char) :=
  (s.splitOnP pyIsSpace).filter (fun w => w ≠ [])

/-- Python `s.lower()` (ASCII part). -/
def pyLower (s : List Char) : List Char := s.map Char.toLower

/-- The character list of a string literal. -/
def chars (s : String) : List Char := s.data

/-- Python `round(q, 2)`: round to two decimal places, ties to even. -/
def pyRound2 (q : ℚ) : ℚ :=
  let scaled := q * 100
  let f : ℤ := ⌊scaled⌋
  let r : ℚ := scaled - f
  let n : ℤ := if r < 1/2 then f else if 1/2 < r then f + 1 else if f % 2 = 0 then f else f + 1
  (n : ℚ) / 100

/-- An HTTP error response (`fastapi.HTTPException`). -/
structure HTTPError where
  status_code : Nat
  detail : String
deriving Repr, DecidableEq

/-! ## EstimationModel (`ModelState.time_estimation_data`) -/

/-- One entry of `model_state.time_estimation_data`: a
`{char_count, word_count, duration}` record. -/
structure EstimationRecord where
  char_count : Nat
  word_count : Nat
  duration : ℚ
deriving Repr, DecidableEq

/-- `ModelState.add_estimation_data`: append one generation record. -/
def add_estimation_data (data : List EstimationRecord)
    (char_count word_count : Nat) (duration : ℚ) : List EstimationRecord :=
  data ++ [{ char_count := char_count, word_count := word_count, duration := duration }]

/-- `sum(d['char_count'] for d in data)`. -/
def totalChars (data : List EstimationRecord) : Nat :=
  (data.map (fun d => d.char_count)).sum

/-- `sum(d['word_count'] for d in data)`. -/
def totalWords (data : List EstimationRecord) : Nat :=
  (data.map (fun d => d.word_count)).sum

/-- `sum(d['duration'] for d in data)`. -/
def totalDuration (data : List EstimationRecord) : ℚ :=
  (data.map (fun d => d.duration)).sum

/-- `ModelState.estimate_generation_time`: estimate generation time from the
recorded history.  Mirrors the source line by line; `0.1`, `0.5`, `0.7`, `0.3`
are the source's float literals. -/
def estimate_generation_time (data : List EstimationRecord)
    (char_count word_count : Nat) : ℚ :=
  if data = [] then
    (char_count : ℚ) * (1/10)
  else
    let avg_per_char : ℚ :=
      if 0 < totalChars data then totalDuration data / (totalChars data : ℚ) else 1/10
    let avg_per_word : ℚ :=
      if 0 < totalWords data then totalDuration data / (totalWords data : ℚ) else 1/2
    let estimate_by_chars := (char_count : ℚ) * avg_per_char
    let estimate_by_words := (word_count : ℚ) * avg_per_word
    estimate_by_chars * (7/10) + estimate_by_words * (3/10)

/-- Response body of `POST /estimate-time`. -/
structure EstimateTimeResponse where
  estimated_seconds : ℚ
  char_count : Nat
  word_count : Nat
deriving Repr, DecidableEq

/-- The `POST /estimate-time` endpoint (source function
`estimate_generation_time` at module level): strip the text, reject empty
text with a 400 error, otherwise estimate from the recorded history. -/
def estimate_time_endpoint (data : List EstimationRecord) (text : List Char) :
    Except HTTPError EstimateTimeResponse :=
  let t := pyStrip text
  if t = [] then
    .error ⟨400, "text field is required"⟩
  else
    let char_count := t.length
    let word_count := (pySplitWhitespace t).length
    .ok ⟨pyRound2 (estimate_generation_time data char_count word_count),
         char_count, word_count⟩

/-! ## Async job system (`TtsJob`, `_job_store`, `_new_job`, `_dispatch_tts`) -/

/-- `class JobStatus(str, Enum)`. -/
inductive JobStatus where
  | queued
  | running
  | done
  | failed
deriving Repr, DecidableEq

/-- The string value of a `JobStatus` (it is a `str` enum in the source). -/
def JobStatus.text : JobStatus → String
  | .queued => "queued"
  | .running => "running"
  | .done => "done"
  | .failed => "failed"

/-- `@dataclass class TtsJob`, with the source's field defaults. -/
structure TtsJob where
  job_id : String
  status : JobStatus := .queued
  created_at : ℚ := 0
  started_at : Option ℚ := none
  finished_at : Option ℚ := none
  error : Option String := none
  result_bytes : Option (List Nat) := none
  result_content_type : String := "audio/wav"
  result_filename : String := "generated.wav"
  generation_time_ms : Option Int := none
deriving Repr, DecidableEq

/-- `_job_store: dict` (job_id -> TtsJob), as an insertion-ordered association
list, matching Python dict iteration order. -/
abbrev JobStore := List (String × TtsJob)

/-- `_JOB_STORE_MAX = 50`. -/
def JOB_STORE_MAX : Nat := 50

/-- `TtsJob(job_id=..., created_at=time.time())`: a fresh job record. -/
def mkJob (job_id : String) (created_at : ℚ) : TtsJob :=
  { job_id := job_id, created_at := created_at }

/-- `_job_store.get(job_id)`. -/
def storeGet (store : JobStore) (job_id : String) : Option TtsJob :=
  (store.find? (fun p => p.1 = job_id)).map (fun p => p.2)

/-- The comparison `sorted(...)` uses: keys ordered by their job's
`created_at` (each key is carried together with its job). -/
def byCreatedAt (a b : String × TtsJob) : Bool :=
  a.2.created_at ≤ b.2.created_at

/-- The body of `_new_job`, with the capacity bound as a parameter: insert the
fresh job, then, if the store exceeds the bound, delete the oldest
(`len - max`) jobs by `created_at` (`sorted` is stable; `del` removes the
key's entry). -/
def insertJobBounded (max : Nat) (store : JobStore) (job_id : String) (now : ℚ) :
    JobStore :=
  let job := mkJob job_id now
  let store1 := store ++ [(job.job_id, job)]
  if max < store1.length then
    let sorted_entries := store1.mergeSort byCreatedAt
    let sorted_ids := sorted_entries.map (fun p => p.1)
    (sorted_ids.take (store1.length - max)).foldl
      (fun acc old_id => acc.eraseP (fun p => p.1 = old_id)) store1
  else store1

/-- `_new_job` as in the source, at capacity `_JOB_STORE_MAX`. -/
def new_job (store : JobStore) (job_id : String) (now : ℚ) : JobStore :=
  insertJobBounded JOB_STORE_MAX store job_id now

/-- A run of `_new_job` for each `(job_id, created_at)` pair in order,
starting from the empty store. -/
def createAll (max : Nat) (entries : List (String × ℚ)) : JobStore :=
  entries.foldl (fun s e => insertJobBounded max s e.1 e.2) []

/-- The store entry `_new_job` creates for a `(job_id, created_at)` pair. -/
def entryPair (e : String × ℚ) : String × TtsJob := (e.1, mkJob e.1 e.2)

/-- A Python exception as seen by `_dispatch_tts`: its type name
(`type(e).__name__`) and message (`str(e)`). -/
structure PyExn where
  name : String
  msg : String
deriving Repr, DecidableEq

/-- What `blocking_fn` returns on success: `(wav_bytes, gen_time_ms, filename)`. -/
abbrev BlockingResult := List Nat × Int × String

/-- `_dispatch_tts`: run the blocking work and record its outcome on the job.
On success set the result fields and `status = done`; on an exception set
`error = f"{type(e).__name__}: {e}"` and `status = failed`; in both cases
(`finally`) set `finished_at = time.time()`.  The job is returned, never an
exception: the worker survives a failed task. -/
def dispatch_tts (job : TtsJob) (blocking_fn : Except PyExn BlockingResult)
    (finish_time : ℚ) : TtsJob :=
  match blocking_fn with
  | .ok (wav_bytes, gen_time_ms, filename) =>
      { job with
          result_bytes := some wav_bytes
          generation_time_ms := some gen_time_ms
          result_filename := filename
          status := .done
          finished_at := some finish_time }
  | .error e =>
      { job with
          error := some (e.name ++ ": " ++ e.msg)
          status := .failed
          finished_at := some finish_time }

/-- `_dispatch_tts` together with the estimation state it can see: the body of
`_dispatch_tts` never touches `model_state.time_estimation_data`, so the
returned estimation data is the input unchanged. -/
def dispatch_tts_step (estimation_data : List EstimationRecord) (job : TtsJob)
    (blocking_fn : Except PyExn BlockingResult) (finish_time : ℚ) :
    List EstimationRecord × TtsJob :=
  (estimation_data, dispatch_tts job blocking_fn finish_time)

/-- The job records that actually occur in the process: a job is created by
`_new_job` (fresh, `queued`) and is mutated only by the single
`_dispatch_tts` call made for it at creation. -/
inductive ReachableJob : TtsJob → Prop
  | created (job_id : String) (created_at : ℚ) :
      ReachableJob (mkJob job_id created_at)
  | dispatched (job_id : String) (created_at : ℚ)
      (blocking_fn : Except PyExn BlockingResult) (finish_time : ℚ) :
      ReachableJob (dispatch_tts (mkJob job_id created_at) blocking_fn finish_time)

/-- The claimed result/error invariant on a job record. -/
def resultErrorInvariant (j : TtsJob) : Prop :=
  ((j.status = .done ∨ j.status = .failed) →
    ((j.result_bytes.isSome ∧ j.error = none) ∨ (j.error.isSome ∧ j.result_bytes = none)))
  ∧ (j.status = .failed → j.error.isSome ∧ j.result_bytes = none)
  ∧ (j.status = .done → j.result_bytes.isSome ∧ j.error = none)
  ∧ ((j.status = .queued ∨ j.status = .running) → j.result_bytes = none ∧ j.error = none)

/-- Reply of `GET /jobs/{job_id}/result`: an `HTTPException` or the audio
`Response` (content, media type, filename, `X-Generation-Time-Ms`). -/
inductive JobResultResponse where
  | httpError (status_code : Nat) (detail : String)
  | audio (content : Option (List Nat)) (media_type : String)
      (filename : String) (gen_time_ms : Int)
deriving Repr, DecidableEq

/-- `get_job_result` (`GET /jobs/{job_id}/result`): 404 if the id is unknown,
202 while `queued`/`running`, 500 with the job's `error` if `failed`,
otherwise the stored audio.  The handler only reads the store; the returned
store is the state it leaves behind. -/
def get_job_result (store : JobStore) (job_id : String) :
    JobResultResponse × JobStore :=
  match storeGet store job_id with
  | none => (.httpError 404 ("Job '" ++ job_id ++ "' not found"), store)
  | some job =>
      if job.status = .queued ∨ job.status = .running then
        (.httpError 202 ("Job is still " ++ job.status.text), store)
      else if job.status = .failed then
        (.httpError 500 (job.error.getD "TTS generation failed"), store)
      else
        (.audio job.result_bytes job.result_content_type job.result_filename
          (job.generation_time_ms.getD 0), store)

/-! ## Backend dispatch policy of `POST /generate` (`generate_endpoint`) -/

/-- The loaded-model flags of the global `ModelState`: a flag is `true` when
the corresponding model object is not `None`. -/
structure ModelsState where
  voice_design_model : Bool
  base_model_0_6b : Bool
  base_model_1_7b : Bool
  custom_voice_model_0_6b : Bool
  custom_voice_model_1_7b : Bool
  models_loaded : Bool
  load_error : Option String
deriving Repr, DecidableEq

/-- `MODEL_SIZES = ["0.6B", "1.7B"]`. -/
def MODEL_SIZES : List (List Char) := [chars "0.6B", chars "1.7B"]

/-- `model_state.BASE_MODELS[model_size]` is loaded. -/
def baseModelFor (ms : ModelsState) (size : List Char) : Bool :=
  if size = chars "0.6B" then ms.base_model_0_6b else ms.base_model_1_7b

/-- `model_state.CUSTOM_VOICE_MODELS[model_size]` is loaded. -/
def customVoiceModelFor (ms : ModelsState) (size : List Char) : Bool :=
  if size = chars "0.6B" then ms.custom_voice_model_0_6b else ms.custom_voice_model_1_7b

/-- The body of `POST /generate` as far as the claims reach: which fields the
request carries.  Decoding of the reference audio (`base64` + `sf.read`) is
external I/O, abstracted by the flag `reference_audio_decodes`. -/
structure GenerateRequest where
  text : List Char
  mode : Option (List Char)
  voice : Option (List Char)
  model_id : Option (List Char)
  reference_audio_base64 : Option (List Char)
  reference_audio_decodes : Bool
  reference_text : List Char
deriving Repr, DecidableEq

/-- Which backend `generate_endpoint` ends up invoking. -/
inductive UsedBackend where
  | voiceClone (model_size : List Char)
  | voiceDesign
  | customVoice (model_size : List Char)
  | baseModelXVector
deriving Repr, DecidableEq

/-- `model_size = str(model_id_str).split("-")[-1]`, then defaulted to
`"1.7B"` unless it is in `MODEL_SIZES`. -/
def resolveModelSize (model_id : List Char) : List Char :=
  let last := (model_id.splitOn '-').getLastD []
  if last ∈ MODEL_SIZES then last else chars "1.7B"

/-- `check_models_loaded`: 503 if loading failed or models are not loaded yet. -/
def check_models_loaded (ms : ModelsState) : Except HTTPError Unit :=
  if ms.load_error.isSome then
    .error ⟨503, "Models failed to load"⟩
  else if ms.models_loaded = false then
    .error ⟨503, "Models are still loading. Please try again in a moment."⟩
  else .ok ()

/-- The backend-selection control flow of `generate_endpoint`
(`POST /generate`), returning which backend serves the request or the
`HTTPException` raised.  The synthesis calls themselves are external and
abstracted as succeeding; calling a method on a `None` sub-model raises
`AttributeError`, surfaced by the handler as a 500. -/
def generate_endpoint_dispatch (ms : ModelsState) (req : GenerateRequest) :
    Except HTTPError UsedBackend :=
  match check_models_loaded ms with
  | .error e => .error e
  | .ok _ =>
    let text := pyStrip req.text
    if text = [] then
      .error ⟨400, "text field is required and must not be empty"⟩
    else
      let mode := pyLower (req.mode.getD (chars "custom_voice"))
      let model_size := resolveModelSize (req.model_id.getD (chars "1.7B"))
      if mode = chars "voice_clone" ∧ ms.base_model_1_7b then
        match req.reference_audio_base64 with
        | none => .error ⟨400, "voice_clone mode requires reference_audio_base64"⟩
        | some _ =>
          if req.reference_audio_decodes = false then
            .error ⟨400, "Failed to decode reference audio"⟩
          else if baseModelFor ms model_size then .ok (.voiceClone model_size)
          else .error ⟨500, "Error: AttributeError: 'NoneType' object has no attribute 'generate_voice_clone'"⟩
      else if mode = chars "voice_design" ∧ ms.voice_design_model then
        .ok .voiceDesign
      else
        -- `elif mode == "voice_design" and not model_state.voice_design_model:
        --    mode = "custom_voice"`  (fallback), then the `if mode == "custom_voice"` block
        let mode2 := if mode = chars "voice_design" ∧ ms.voice_design_model = false
                     then chars "custom_voice" else mode
        if mode2 = chars "custom_voice" then
          if ms.custom_voice_model_1_7b then
            if customVoiceModelFor ms model_size then .ok (.customVoice model_size)
            else .error ⟨500, "Error: AttributeError: 'NoneType' object has no attribute 'generate_custom_voice'"⟩
          else if ms.base_model_1_7b then .ok .baseModelXVector
          else .error ⟨503, "No TTS models available"⟩
        else
          -- `wavs` was never assigned: `if wavs is None or sr is None: raise 500`
          .error ⟨500, "Failed to generate audio"⟩

/-! ## `_normalize_audio` -/

/-- A NumPy dtype as far as `_normalize_audio` inspects it: an integer dtype
with its `iinfo` range, a floating dtype, or anything else. -/
inductive NpDtype where
  | int (lo hi : Int)
  | float
  | other (name : String)
deriving Repr, DecidableEq

/-- An `np.ndarray`, row-major: its shape, flat data and dtype.  Sample values
are exact rationals. -/
structure NDArray where
  shape : List Nat
  data : List ℚ
  dtype : NpDtype
deriving Repr, DecidableEq

/-- `np.clip(y, -1.0, 1.0)`, one element. -/
def clamp1 (q : ℚ) : ℚ := min 1 (max (-1) q)

/-- `np.mean` of a flat vector. -/
def listMean (xs : List ℚ) : ℚ := xs.sum / (xs.length : ℚ)

/-- `np.mean(y, axis=-1)` on row-major data: the mean of each contiguous chunk
of `len` elements (`len` = size of the last axis). -/
def chunkMeans (len : Nat) (xs : List ℚ) : List ℚ :=
  if h : len = 0 ∨ xs = [] then []
  else listMean (xs.take len) :: chunkMeans len (xs.drop len)
termination_by xs.length
decreasing_by
  simp only [not_or] at h
  have h1 : 0 < len := Nat.pos_of_ne_zero h.1
  have h2 : xs ≠ [] := h.2
  have : 0 < xs.length := List.length_pos.mpr h2
  simpa [List.length_drop] using Nat.sub_lt this h1

/-- The tail of `_normalize_audio` after `y` is computed: optional clip to
`[-1, 1]`, then one mean over the last axis when the array has more than one
dimension.  The result dtype is `float32`. -/
def normalizeFinish (shape : List Nat) (y : List ℚ) (clip : Bool) : NDArray :=
  let y1 := if clip then y.map clamp1 else y
  if 1 < shape.length then
    { shape := shape.dropLast, data := chunkMeans (shape.getLastD 1) y1, dtype := .float }
  else
    { shape := shape, data := y1, dtype := .float }

/-- `_normalize_audio(wav, eps=1e-12, clip=True)`:
* signed integer dtype: divide by `max(abs(info.min), info.max)`;
* unsigned integer dtype: shift by `mid=(info.max+1)/2` and divide by `mid`;
* floating dtype: divide by `max(abs(y)) + eps` when that max exceeds
  `1.0 + 1e-6`;
* any other dtype: `raise TypeError(f"Unsupported dtype: {x.dtype}")`;
then clip to `[-1, 1]` and average the channel axis (see `normalizeFinish`). -/
def normalize_audio (wav : NDArray) (eps : ℚ := 1/1000000000000)
    (clip : Bool := true) : Except String NDArray :=
  match wav.dtype with
  | .int lo hi =>
      if lo < 0 then
        let denom : ℚ := ((max (-lo) hi : ℤ) : ℚ)
        .ok (normalizeFinish wav.shape (wav.data.map (fun v => v / denom)) clip)
      else
        let mid : ℚ := ((hi : ℚ) + 1) / 2
        .ok (normalizeFinish wav.shape (wav.data.map (fun v => (v - mid) / mid)) clip)
  | .float =>
      let m : ℚ := if wav.data ≠ [] then (wav.data.map (fun v => |v|)).foldr max 0 else 0
      let y := if 1 + 1/1000000 < m then wav.data.map (fun v => v / (m + eps)) else wav.data
      .ok (normalizeFinish wav.shape y clip)
  | .other name => .error ("Unsupported dtype: " ++ name)

/-! ## Helper lemmas -/

/-- A text made of whitespace strips to the empty text. -/
theorem pyStrip_eq_nil_of_all_space (text : List Char) (h : text.all pyIsSpace) :
    pyStrip text = [] := by
  have h1 : text.dropWhile pyIsSpace = [] :=
    List.dropWhile_eq_nil_iff.mpr (fun x hx => by
      have := List.all_eq_true.mp h x hx
      simpa using this)
  simp [pyStrip, h1]

/-- `np.clip(·, -1.0, 1.0)` lands in `[-1, 1]`. -/
theorem clamp1_bounds (q : ℚ) : -1 ≤ clamp1 q ∧ clamp1 q ≤ 1 := by
  unfold clamp1
  constructor
  · exact le_min (by norm_num) (le_max_left _ _)
  · exact min_le_left _ _

/-- The mean of a nonempty list of values in `[-1, 1]` is in `[-1, 1]`. -/
theorem listMean_bounds (xs : List ℚ) (hne : xs ≠ [])
    (h : ∀ v ∈ xs, -1 ≤ v ∧ v ≤ 1) : -1 ≤ listMean xs ∧ listMean xs ≤ 1 := by
  have hn : (0 : ℚ) < (xs.length : ℚ) := by
    have := List.length_pos.mpr hne
    exact_mod_cast this
  have hub : xs.sum ≤ (xs.length : ℚ) := by
    have := List.sum_le_card_nsmul xs 1 (fun v hv => (h v hv).2)
    simpa [nsmul_eq_mul] using this
  have hlb : -(xs.length : ℚ) ≤ xs.sum := by
    have := List.card_nsmul_le_sum xs (-1) (fun v hv => (h v hv).1)
    simpa [nsmul_eq_mul] using this
  constructor
  · rw [listMean, le_div_iff₀ hn]
    linarith
  · rw [listMean, div_le_one hn]
    exact hub

/-- Chunked means of values in `[-1, 1]` stay in `[-1, 1]`. -/
theorem chunkMeans_mem_bounds (len : Nat) (hlen : len ≠ 0) :
    ∀ (n : Nat) (xs : List ℚ), xs.length ≤ n →
      (∀ v ∈ xs, -1 ≤ v ∧ v ≤ 1) → ∀ v ∈ chunkMeans len xs, -1 ≤ v ∧ v ≤ 1 := by
  intro n
  induction n with
  | zero =>
      intro xs hl h v hv
      have hxs : xs = [] := List.eq_nil_of_length_eq_zero (Nat.le_zero.mp hl)
      rw [hxs, chunkMeans] at hv
      simp at hv
  | succ n ih =>
      intro xs hl h v hv
      by_cases hxs : xs = []
      · rw [hxs, chunkMeans] at hv
        simp at hv
      · rw [chunkMeans, dif_neg (by simp [hlen, hxs])] at hv
        rcases List.mem_cons.mp hv with hveq | hvrec
        · subst hveq
          apply listMean_bounds
          · simpa [List.take_eq_nil_iff] using And.intro hlen hxs
          · intro v hv
            exact h v ((List.take_sublist len xs).subset hv)
        · apply ih (xs.drop len) _ _ v hvrec
          · have h1 : 0 < xs.length := List.length_pos.mpr hxs
            have h2 : 0 < len := Nat.pos_of_ne_zero hlen
            simp only [List.length_drop]
            omega
          · intro v hv
            exact h v ((List.drop_sublist len xs).subset hv)

/-- `getLastD` of a nonempty list is one of its elements. -/
theorem getLastD_mem_of_ne_nil (l : List Nat) (d : Nat) (h : l ≠ []) :
    l.getLastD d ∈ l := by
  rw [List.getLastD_eq_getLast?, List.getLast?_eq_getLast l h]
  exact List.getLast_mem h

/-- What the tail of `_normalize_audio` guarantees with `clip=True`: float
dtype, all samples in `[-1, 1]`, and one axis dropped when the input has more
than one. -/
theorem normalizeFinish_props (shape : List Nat) (y : List ℚ)
    (hpos : ∀ d ∈ shape, 0 < d) :
    (normalizeFinish shape y true).dtype = .float
    ∧ (∀ v ∈ (normalizeFinish shape y true).data, -1 ≤ v ∧ v ≤ 1)
    ∧ (normalizeFinish shape y true).shape
        = (if 1 < shape.length then shape.dropLast else shape) := by
  have hy1 : ∀ v ∈ y.map clamp1, -1 ≤ v ∧ v ≤ 1 := by
    intro v hv
    rcases List.mem_map.mp hv with ⟨u, _, hu⟩
    exact hu ▸ clamp1_bounds u
  by_cases hdim : 1 < shape.length
  · have hne : shape ≠ [] := by
      intro hnil; rw [hnil] at hdim; simp at hdim
    have hlast : shape.getLastD 1 ≠ 0 := by
      have := hpos _ (getLastD_mem_of_ne_nil shape 1 hne)
      omega
    refine ⟨?_, ?_, ?_⟩
    · simp [normalizeFinish, hdim]
    · intro v hv
      simp only [normalizeFinish, if_pos hdim] at hv
      exact chunkMeans_mem_bounds _ hlast (y.map clamp1).length _ le_rfl hy1 v hv
    · simp [normalizeFinish, hdim]
  · refine ⟨?_, ?_, ?_⟩
    · simp [normalizeFinish, hdim]
    · intro v hv
      simp only [normalizeFinish, if_neg hdim] at hv
      exact hy1 v hv
    · simp [normalizeFinish, hdim]

/-- `mkJob` sets the `job_id` field. -/
theorem mkJob_job_id (i : String) (t : ℚ) : (mkJob i t).job_id = i := rfl

/-- `mkJob` sets the `created_at` field. -/
theorem mkJob_created_at (i : String) (t : ℚ) : (mkJob i t).created_at = t := rfl

/-- `createAll` peels off its last insertion. -/
theorem createAll_append (max : Nat) (es : List (String × ℚ)) (e : String × ℚ) :
    createAll max (es ++ [e]) = insertJobBounded max (createAll max es) e.1 e.2 := by
  simp [createAll, List.foldl_append]

/-- A store already sorted by `created_at` is left unchanged by the
stable sort. -/
theorem mergeSort_sorted_id (s : JobStore)
    (hs : s.Pairwise (fun a b => a.2.created_at ≤ b.2.created_at)) :
    s.mergeSort byCreatedAt = s :=
  List.mergeSort_of_sorted (by
    refine hs.imp ?_
    intro a b h
    simpa [byCreatedAt] using h)

/-- Deleting the head's id from a store removes exactly the head. -/
theorem eraseP_first_id (a : String × TtsJob) (t : JobStore) :
    List.eraseP (fun p => p.1 = a.1) (a :: t) = t :=
  List.eraseP_cons_of_pos (by simp)

/-- One `_new_job` insertion moves the sliding window one step: inserting a
strictly newer job into the window of `es` yields the window of `es ++ [e]`. -/
theorem insertJobBounded_window (max : Nat) (es : List (String × ℚ)) (e : String × ℚ)
    (hes : es.Pairwise (fun a b => a.2 < b.2))
    (hlt : ∀ x ∈ es, x.2 < e.2) :
    insertJobBounded max ((es.drop (es.length - max)).map entryPair) e.1 e.2
      = ((es ++ [e]).drop ((es ++ [e]).length - max)).map entryPair := by
  have hd_le : es.length - max ≤ es.length := Nat.sub_le _ _
  have hstore1 : (es.drop (es.length - max)).map entryPair ++ [(e.1, mkJob e.1 e.2)]
      = ((es ++ [e]).drop (es.length - max)).map entryPair := by
    rw [List.drop_append_of_le_length hd_le, List.map_append]
    rfl
  have hlenS : (((es ++ [e]).drop (es.length - max)).map entryPair).length
      = es.length + 1 - (es.length - max) := by
    simp [List.length_drop, List.length_append]
  simp only [insertJobBounded, mkJob_job_id]
  rw [hstore1]
  by_cases hcap : max < (((es ++ [e]).drop (es.length - max)).map entryPair).length
  · -- eviction fires: the window already held `max` jobs
    have hmax_le : max ≤ es.length := by
      by_contra hgt
      rw [hlenS] at hcap
      omega
    rw [if_pos hcap]
    have hp1 : (es ++ [e]).Pairwise (fun a b => a.2 < b.2) := by
      rw [List.pairwise_append]
      refine ⟨hes, List.pairwise_singleton _ _, ?_⟩
      intro x hx b hb
      rw [List.mem_singleton] at hb
      subst hb
      exact hlt x hx
    have hp2 : ((es ++ [e]).drop (es.length - max)).Pairwise (fun a b => a.2 < b.2) :=
      hp1.sublist (List.drop_sublist _ _)
    have hp3 : (((es ++ [e]).drop (es.length - max)).map entryPair).Pairwise
        (fun a b => a.2.created_at ≤ b.2.created_at) :=
      hp2.map entryPair (fun a b hab => by
        simpa [entryPair, mkJob_created_at] using le_of_lt hab)
    rw [mergeSort_sorted_id _ hp3]
    have htake1 : (((es ++ [e]).drop (es.length - max)).map entryPair).length - max = 1 := by
      rw [hlenS]
      omega
    rw [htake1]
    rcases hdrop : (es ++ [e]).drop (es.length - max) with _ | ⟨x, rest⟩
    · exfalso
      have := congrArg List.length hdrop
      simp only [List.length_drop, List.length_append, List.length_nil,
        List.length_singleton] at this
      omega
    · have hrest : rest = (es ++ [e]).drop (es.length - max + 1) := by
        have htl := List.tail_drop (es ++ [e]) (es.length - max)
        rw [hdrop] at htl
        simpa using htl
      have hfinal : (es ++ [e]).length - max = es.length - max + 1 := by
        simp only [List.length_append, List.length_singleton]
        omega
      rw [hfinal]
      rw [← hrest]
      simp only [List.map_cons, List.take_succ_cons, List.take_zero,
        List.foldl_cons, List.foldl_nil]
      exact eraseP_first_id (entryPair x) (rest.map entryPair)
  · -- no eviction: everything fits
    rw [if_neg hcap]
    have hfit : es.length < max := by
      rw [hlenS] at hcap
      omega
    have h1 : es.length - max = 0 := by omega
    have h2 : (es ++ [e]).length - max = 0 := by
      simp only [List.length_append, List.length_singleton]
      omega
    rw [h1, h2]

/-- After any run of `_new_job` insertions with strictly increasing creation
times, the store is exactly the window of the `min(n, max)` newest entries,
in insertion order. -/
theorem createAll_eq_window (max : Nat) (entries : List (String × ℚ))
    (hmono : entries.Pairwise (fun a b => a.2 < b.2)) :
    createAll max entries
      = (entries.drop (entries.length - max)).map entryPair := by
  induction entries using List.reverseRecOn with
  | nil => simp [createAll]
  | append_singleton es e ih =>
      have hes : es.Pairwise (fun a b => a.2 < b.2) :=
        hmono.sublist (List.sublist_append_left es [e])
      have hlt : ∀ x ∈ es, x.2 < e.2 := by
        have hp := List.pairwise_append.mp hmono
        intro x hx
        exact hp.2.2 x hx e (by simp)
      rw [createAll_append, ih hes]
      exact insertJobBounded_window max es e hes hlt

/-- A key matching no entry looks up to `absent`. -/
theorem storeGet_eq_none (s : JobStore) (id : String)
    (h : ∀ p ∈ s, p.1 ≠ id) : storeGet s id = none := by
  unfold storeGet
  rw [List.find?_eq_none.mpr]
  · rfl
  · intro x hx
    simpa using h x hx

/-- In a store with distinct keys, a stored entry's key looks up to its job. -/
theorem storeGet_of_mem_nodup (s : JobStore) (id : String) (j : TtsJob)
    (hmem : (id, j) ∈ s) (hnd : (s.map Prod.fst).Nodup) :
    storeGet s id = some j := by
  induction s with
  | nil => simp at hmem
  | cons a t ih =>
      rw [List.map_cons, List.nodup_cons] at hnd
      rcases List.mem_cons.mp hmem with heq | hmemt
      · subst heq
        unfold storeGet
        rw [List.find?_cons_of_pos _ (by simp)]
        rfl
      · have hane : ¬(a.1 = id) := by
          intro hfst
          apply hnd.1
          rw [hfst]
          exact List.mem_map_of_mem Prod.fst hmemt
        unfold storeGet
        rw [List.find?_cons_of_neg _ (by simpa using hane)]
        exact ih hmemt hnd.2

/-! ## Claim theorems -/

/-- C1 counterexample: run the dispatch routine on a freshly created job with a
succeeding unit of blocking work.  The job record is `queued` with
`started_at = None` when the backend call begins, and even after the job
completes (`done`) its `started_at` is still `None`: no `queued → running`
transition setting `started_at` ever happened. -/
theorem c1_counterexample :
    (mkJob "job-1" 0).status = JobStatus.queued
    ∧ (mkJob "job-1" 0).started_at = none
    ∧ (dispatch_tts (mkJob "job-1" 0) (.ok ([0], 5, "generated.wav")) 1).status
        = JobStatus.done
    ∧ (dispatch_tts (mkJob "job-1" 0) (.ok ([0], 5, "generated.wav")) 1).started_at
        = none :=
  ⟨rfl, rfl, rfl, rfl⟩

/-- C1 (amended): the dispatch routine never sets `running` or `started_at`
(the job stays `queued`, with `started_at = None`, while the backend call
runs, and moves directly to a terminal status); it sets `finished_at` on
completion, and `created_at ≤ finished_at` holds since dispatch finishes no
earlier than creation. -/
theorem c1_amended (job_id : String) (t0 : ℚ) (fn : Except PyExn BlockingResult)
    (t1 : ℚ) (h : t0 ≤ t1) :
    (mkJob job_id t0).status = JobStatus.queued
    ∧ (mkJob job_id t0).started_at = none
    ∧ (dispatch_tts (mkJob job_id t0) fn t1).started_at = none
    ∧ (dispatch_tts (mkJob job_id t0) fn t1).status ≠ JobStatus.running
    ∧ (dispatch_tts (mkJob job_id t0) fn t1).finished_at = some t1
    ∧ ∀ tf, (dispatch_tts (mkJob job_id t0) fn t1).finished_at = some tf →
        (dispatch_tts (mkJob job_id t0) fn t1).created_at ≤ tf := by
  rcases fn with e | ⟨a, b, c⟩ <;>
    refine ⟨rfl, rfl, rfl, by simp [dispatch_tts, mkJob], rfl, ?_⟩ <;>
    · intro tf htf
      simp only [dispatch_tts, mkJob, Option.some.injEq] at htf ⊢
      exact htf ▸ h

/-- C1 witness. -/
theorem c1_amended_witness :
    (dispatch_tts (mkJob "job-1" 0) (.ok ([0], 5, "generated.wav")) 1).started_at = none
    ∧ (dispatch_tts (mkJob "job-1" 0) (.ok ([0], 5, "generated.wav")) 1).finished_at = some 1 :=
  ⟨(c1_amended "job-1" 0 (.ok ([0], 5, "generated.wav")) 1 (by decide)).2.2.1,
   (c1_amended "job-1" 0 (.ok ([0], 5, "generated.wav")) 1 (by decide)).2.2.2.2.1⟩

/-- C2: for every sequence of job creations with fresh ids and strictly
increasing creation times, and any capacity bound (the source fixes
`_JOB_STORE_MAX = 50`): looking up any of the `k = n - N` oldest ids returns
absent (surfaced as `NotFound`), each of the `N` newest ids still returns its
job, and after every creation the store holds at most `N` jobs. -/
theorem c2_store_eviction (max : Nat) (entries : List (String × ℚ))
    (hnodup : (entries.map Prod.fst).Nodup)
    (hmono : entries.Pairwise (fun a b => a.2 < b.2)) :
    (∀ i (hi : i < entries.length),
      (i < entries.length - max →
        storeGet (createAll max entries) (entries.get ⟨i, hi⟩).1 = none)
      ∧ (entries.length - max ≤ i →
        storeGet (createAll max entries) (entries.get ⟨i, hi⟩).1
          = some (mkJob (entries.get ⟨i, hi⟩).1 (entries.get ⟨i, hi⟩).2)))
    ∧ (∀ m, (createAll max (entries.take m)).length ≤ max) := by
  have hwin := createAll_eq_window max entries hmono
  constructor
  · intro i hi
    constructor
    · intro hik
      rw [hwin]
      apply storeGet_eq_none
      intro p hp heq
      rcases List.mem_map.mp hp with ⟨x, hx, rfl⟩
      rcases List.mem_iff_getElem.mp hx with ⟨m, hm, hxm⟩
      have hlt2 : entries.length - max + m < entries.length := by
        rw [List.length_drop] at hm
        omega
      have hget : entries.get ⟨entries.length - max + m, hlt2⟩ = x := by
        rw [List.get_eq_getElem, List.getElem_drop']
        exact hxm
      have hkey : (entries.map Prod.fst).get ⟨i, by simpa using hi⟩
          = (entries.map Prod.fst).get ⟨entries.length - max + m, by simpa using hlt2⟩ := by
        simp only [List.get_eq_getElem, List.getElem_map]
        rw [List.get_eq_getElem] at hget heq
        rw [hget]
        exact heq.symm
      rw [List.get_eq_getElem, List.get_eq_getElem] at hkey
      have hij := (hnodup.getElem_inj_iff).mp hkey
      simp only [Fin.val_mk] at hij
      omega
    · intro hki
      rw [hwin]
      apply storeGet_of_mem_nodup
      · have hi2 : entries.length - max + (i - (entries.length - max)) = i := by omega
        have hlt2 : i - (entries.length - max)
            < (entries.drop (entries.length - max)).length := by
          rw [List.length_drop]
          omega
        have hmem : entries.get ⟨i, hi⟩ ∈ entries.drop (entries.length - max) := by
          rw [List.get_eq_getElem]
          have h3 := List.getElem_drop' entries
            (i := entries.length - max) (j := i - (entries.length - max)) (by omega)
          simp only [hi2] at h3
          rw [h3]
          exact List.getElem_mem hlt2
        exact List.mem_map_of_mem entryPair hmem
      · have hcomp : ((entries.drop (entries.length - max)).map entryPair).map Prod.fst
            = (entries.map Prod.fst).drop (entries.length - max) := by
          rw [List.map_map, List.map_drop]
          rfl
        rw [hcomp]
        exact hnodup.sublist (List.drop_sublist _ _)
  · intro m
    have hmono_t : (entries.take m).Pairwise (fun a b => a.2 < b.2) :=
      hmono.sublist (List.take_sublist _ _)
    rw [createAll_eq_window max _ hmono_t]
    simp only [List.length_map, List.length_drop]
    omega

/-- C2 witness: capacity 2, three creations — the oldest id is gone, the
newest is reachable, the store stays within bound. -/
theorem c2_store_eviction_witness :
    storeGet (createAll 2 [("a", 1), ("b", 2), ("c", 3)]) "a" = none
    ∧ storeGet (createAll 2 [("a", 1), ("b", 2), ("c", 3)]) "c" = some (mkJob "c" 3)
    ∧ (createAll 2 [("a", 1), ("b", 2), ("c", 3)]).length ≤ 2 := by
  have h := c2_store_eviction 2 [("a", 1), ("b", 2), ("c", 3)] (by decide) (by decide)
  exact ⟨(h.1 0 (by decide)).1 (by decide), (h.1 2 (by decide)).2 (by decide), h.2 3⟩

/-- C3: with recorded history whose character and word sums are positive, the
estimate is `0.7·(c·Σduration/Σchars) + 0.3·(w·Σduration/Σwords)`; and after
recording the single sample `(50, 10, 5.0)` the estimate for `(100, 20)` is
exactly `10`. -/
theorem c3_estimate_formula (data : List EstimationRecord) (c w : Nat)
    (hc : 0 < totalChars data) (hw : 0 < totalWords data) :
    estimate_generation_time data c w
      = (7/10) * ((c : ℚ) * (totalDuration data / (totalChars data : ℚ)))
        + (3/10) * ((w : ℚ) * (totalDuration data / (totalWords data : ℚ)))
    ∧ estimate_generation_time (add_estimation_data [] 50 10 5) 100 20 = 10 := by
  constructor
  · have hne : data ≠ [] := by
      intro hnil
      rw [hnil] at hc
      simp [totalChars] at hc
    simp only [estimate_generation_time, if_neg hne, if_pos hc, if_pos hw]
    ring
  · norm_num [estimate_generation_time, add_estimation_data, totalChars,
      totalWords, totalDuration]

/-- C3 witness. -/
theorem c3_estimate_formula_witness :
    estimate_generation_time [⟨50, 10, 5⟩] 100 20
      = (7/10) * ((100 : ℚ) * (totalDuration [⟨50, 10, 5⟩] / (totalChars [⟨50, 10, 5⟩] : ℚ)))
        + (3/10) * ((20 : ℚ) * (totalDuration [⟨50, 10, 5⟩] / (totalWords [⟨50, 10, 5⟩] : ℚ))) :=
  (c3_estimate_formula [⟨50, 10, 5⟩] 100 20 (by decide) (by decide)).1

/-- C4: every job record the process can hold satisfies the result/error
invariant: once `done` or `failed`, exactly one of result/error is set
(`failed` ⇒ error set, result absent; `done` ⇒ result set, error absent), and
while `queued` or `running` neither is set. -/
theorem c4_result_error_invariant (j : TtsJob) (h : ReachableJob j) :
    resultErrorInvariant j := by
  cases h with
  | created job_id created_at =>
      simp [resultErrorInvariant, mkJob]
  | dispatched job_id created_at blocking_fn finish_time =>
      rcases blocking_fn with e | ⟨a, b, c⟩ <;>
        simp [resultErrorInvariant, dispatch_tts, mkJob]

/-- C4 witness. -/
theorem c4_result_error_invariant_witness :
    resultErrorInvariant (dispatch_tts (mkJob "a" 0) (.error ⟨"ValueError", "boom"⟩) 1) :=
  c4_result_error_invariant _ (ReachableJob.dispatched "a" 0 (.error ⟨"ValueError", "boom"⟩) 1)

/-- C5: `get_job_result` answers 404 for an unknown or evicted id, 202 while
the job is `queued` or `running`, 500 carrying the job's `error` when
`failed`, and the stored artifact when `done`; it never modifies the store,
and calling it again returns the identical response (idempotent,
non-consuming). -/
theorem c5_get_job_result_cases (store : JobStore) (job_id : String) (job : TtsJob) :
    (storeGet store job_id = none →
      get_job_result store job_id
        = (.httpError 404 ("Job '" ++ job_id ++ "' not found"), store))
    ∧ (storeGet store job_id = some job →
        (job.status = JobStatus.queued ∨ job.status = JobStatus.running) →
      get_job_result store job_id
        = (.httpError 202 ("Job is still " ++ job.status.text), store))
    ∧ (storeGet store job_id = some job → job.status = JobStatus.failed →
        ∀ emsg, job.error = some emsg →
      get_job_result store job_id = (.httpError 500 emsg, store))
    ∧ (storeGet store job_id = some job → job.status = JobStatus.done →
      get_job_result store job_id
        = (.audio job.result_bytes job.result_content_type job.result_filename
            (job.generation_time_ms.getD 0), store))
    ∧ (get_job_result store job_id).2 = store
    ∧ get_job_result ((get_job_result store job_id).2) job_id
        = get_job_result store job_id := by
  have hsnd : (get_job_result store job_id).2 = store := by
    unfold get_job_result
    cases storeGet store job_id with
    | none => rfl
    | some j =>
        by_cases h1 : j.status = JobStatus.queued ∨ j.status = JobStatus.running
        · simp [h1]
        · by_cases h2 : j.status = JobStatus.failed <;> simp [h1, h2]
  refine ⟨?_, ?_, ?_, ?_, hsnd, by rw [hsnd]⟩
  · intro hnone
    unfold get_job_result
    rw [hnone]
  · intro hsome hqr
    unfold get_job_result
    rw [hsome]
    simp [hqr]
  · intro hsome hf emsg herr
    unfold get_job_result
    rw [hsome]
    have : ¬(job.status = JobStatus.queued ∨ job.status = JobStatus.running) := by
      rw [hf]; simp
    simp [this, hf, herr]
  · intro hsome hd
    unfold get_job_result
    rw [hsome]
    have h1 : ¬(job.status = JobStatus.queued ∨ job.status = JobStatus.running) := by
      rw [hd]; simp
    have h2 : ¬job.status = JobStatus.failed := by rw [hd]; simp
    simp [h1, h2]

/-- C5 witness: a store holding one completed job. -/
theorem c5_get_job_result_witness :
    get_job_result [("a", dispatch_tts (mkJob "a" 1) (.ok ([1, 2], 7, "f.wav")) 2)] "a"
      = (.audio (some [1, 2]) "audio/wav" "f.wav" 7,
         [("a", dispatch_tts (mkJob "a" 1) (.ok ([1, 2], 7, "f.wav")) 2)]) :=
  (c5_get_job_result_cases _ "a"
      (dispatch_tts (mkJob "a" 1) (.ok ([1, 2], 7, "f.wav")) 2)).2.2.2.1 rfl rfl

/-- C6: an exception raised inside the blocking work is captured by the
dispatch routine (which returns the updated job instead of propagating): the
job becomes `failed`, its `error` is the descriptive
`f"{type(e).__name__}: {e}"` message, `finished_at` is set, and no estimation
sample is appended for the failed run. -/
theorem c6_failure_captured (data : List EstimationRecord) (job : TtsJob)
    (e : PyExn) (t : ℚ) :
    (dispatch_tts_step data job (.error e) t).2.status = JobStatus.failed
    ∧ (dispatch_tts_step data job (.error e) t).2.error
        = some (e.name ++ ": " ++ e.msg)
    ∧ (dispatch_tts_step data job (.error e) t).2.finished_at = some t
    ∧ (dispatch_tts_step data job (.error e) t).2.result_bytes = job.result_bytes
    ∧ (dispatch_tts_step data job (.error e) t).1 = data := by
  refine ⟨rfl, rfl, rfl, rfl, rfl⟩

/-- C8: with zero recorded samples the estimate is `c · 0.1` regardless of the
word count — `10.0` for 100 characters — and on this no-data path the
estimate is monotonically non-decreasing in the character count. -/
theorem c8_no_data_estimate (c w c1 c2 w1 w2 : Nat) (h : c1 ≤ c2) :
    estimate_generation_time [] c w = (c : ℚ) * (1/10)
    ∧ estimate_generation_time [] 100 w = 10
    ∧ estimate_generation_time [] c1 w1 ≤ estimate_generation_time [] c2 w2 := by
  refine ⟨by simp [estimate_generation_time], by norm_num [estimate_generation_time], ?_⟩
  have e1 : estimate_generation_time [] c1 w1 = (c1 : ℚ) * (1/10) := by
    simp [estimate_generation_time]
  have e2 : estimate_generation_time [] c2 w2 = (c2 : ℚ) * (1/10) := by
    simp [estimate_generation_time]
  have hc : (c1 : ℚ) ≤ (c2 : ℚ) := by exact_mod_cast h
  rw [e1, e2]
  linarith

/-- C8 witness. -/
theorem c8_no_data_estimate_witness :
    estimate_generation_time [] 100 7 = 10
    ∧ estimate_generation_time [] 3 9 ≤ estimate_generation_time [] 5 0 :=
  ⟨(c8_no_data_estimate 0 7 3 5 9 0 (by decide)).2.1,
   (c8_no_data_estimate 0 7 3 5 9 0 (by decide)).2.2⟩

/-- C9: a request to `POST /estimate-time` whose text is empty or
whitespace-only fails with the 400 validation error and never returns an
estimate. -/
theorem c9_empty_text_rejected (data : List EstimationRecord) (text : List Char)
    (h : text.all pyIsSpace) :
    estimate_time_endpoint data text = .error ⟨400, "text field is required"⟩
    ∧ ∀ r, estimate_time_endpoint data text ≠ .ok r := by
  have hstrip : pyStrip text = [] := pyStrip_eq_nil_of_all_space text h
  constructor
  · simp [estimate_time_endpoint, hstrip]
  · intro r
    simp [estimate_time_endpoint, hstrip]

/-- C9 witness. -/
theorem c9_empty_text_rejected_witness :
    estimate_time_endpoint [] (chars "  ")
      = .error ⟨400, "text field is required"⟩
    ∧ estimate_time_endpoint [] [] = .error ⟨400, "text field is required"⟩ :=
  ⟨(c9_empty_text_rejected [] (chars "  ") (by decide)).1,
   (c9_empty_text_rejected [] [] (by decide)).1⟩

/-- C7 counterexample: only the Base 0.6B model is loaded (so
`models_loaded = True`), and a valid `voice_clone` request (with reference
audio) arrives.  Its intent's backend (Base 1.7B) is unavailable, yet the
endpoint does not fall back to any secondary backend and does not produce a
`ServiceUnavailable`-class error: it fails with
`500 "Failed to generate audio"`. -/
theorem c7_counterexample :
    generate_endpoint_dispatch
      ⟨false, true, false, false, false, true, none⟩
      ⟨chars "hi", some (chars "voice_clone"), none, none, some (chars "ref"), true, []⟩
      = .error ⟨500, "Failed to generate audio"⟩ := rfl

/-- C7 (amended): the fallback chain only covers the `voice_design` and
`custom_voice` intents — `voice_design` without its model falls back to
`custom_voice`, and `custom_voice` without the CustomVoice 1.7B model falls
back to the Base 1.7B model; when neither is available that path fails with
the 503 `"No TTS models available"` error raised during handling (after the
request was accepted past validation); a `voice_clone` request whose backend
is unavailable does not fall back and fails with a 500 error; the selection
logic is a total function, so no request hangs. -/
theorem c7_amended (ms : ModelsState) (req : GenerateRequest)
    (hok : ms.load_error = none) (hloaded : ms.models_loaded = true)
    (htext : pyStrip req.text ≠ [])
    (hsize : resolveModelSize (req.model_id.getD (chars "1.7B")) = chars "1.7B") :
    (pyLower (req.mode.getD (chars "custom_voice")) = chars "voice_design" →
      ms.voice_design_model = false → ms.custom_voice_model_1_7b = true →
      generate_endpoint_dispatch ms req = .ok (.customVoice (chars "1.7B")))
    ∧ (pyLower (req.mode.getD (chars "custom_voice")) = chars "custom_voice" →
      ms.custom_voice_model_1_7b = false → ms.base_model_1_7b = true →
      generate_endpoint_dispatch ms req = .ok .baseModelXVector)
    ∧ (pyLower (req.mode.getD (chars "custom_voice")) = chars "custom_voice" →
      ms.custom_voice_model_1_7b = false → ms.base_model_1_7b = false →
      generate_endpoint_dispatch ms req = .error ⟨503, "No TTS models available"⟩)
    ∧ (pyLower (req.mode.getD (chars "custom_voice")) = chars "voice_clone" →
      ms.base_model_1_7b = false →
      generate_endpoint_dispatch ms req = .error ⟨500, "Failed to generate audio"⟩) := by
  have hchk : check_models_loaded ms = .ok () := by
    simp [check_models_loaded, hok, hloaded]
  have d3 : chars "voice_design" ≠ chars "voice_clone" := by decide
  have d1 : chars "custom_voice" ≠ chars "voice_clone" := by decide
  have d2 : chars "custom_voice" ≠ chars "voice_design" := by decide
  have d4 : chars "voice_clone" ≠ chars "voice_design" := by decide
  have d5 : chars "voice_clone" ≠ chars "custom_voice" := by decide
  have hcvf : customVoiceModelFor ms (chars "1.7B") = ms.custom_voice_model_1_7b := by
    have d6 : (chars "1.7B" : List Char) ≠ chars "0.6B" := by decide
    simp [customVoiceModelFor, d6]
  refine ⟨?_, ?_, ?_, ?_⟩
  · intro hmode hvd hcv
    simp only [generate_endpoint_dispatch, hchk, hmode, hvd, hsize, hcvf]
    simp [htext, d3, hcv]
  · intro hmode hcv hb
    simp only [generate_endpoint_dispatch, hchk, hmode, hcv, hb]
    simp [htext, d1, d2]
  · intro hmode hcv hb
    simp only [generate_endpoint_dispatch, hchk, hmode, hcv, hb]
    simp [htext, d1, d2]
  · intro hmode hb
    simp only [generate_endpoint_dispatch, hchk, hmode, hb]
    simp [htext, d4, d5]

/-- C7 witness: only the VoiceDesign model is loaded and a `custom_voice`
request arrives: neither CustomVoice 1.7B nor Base 1.7B is available, and the
request fails with the 503 error. -/
theorem c7_amended_witness :
    generate_endpoint_dispatch
      ⟨true, false, false, false, false, true, none⟩
      ⟨chars "hi", some (chars "custom_voice"), none, none, none, true, []⟩
      = .error ⟨503, "No TTS models available"⟩ :=
  (c7_amended ⟨true, false, false, false, false, true, none⟩
      ⟨chars "hi", some (chars "custom_voice"), none, none, none, true, []⟩
      rfl rfl (by decide) (by decide)).2.2.1 (by decide) rfl rfl

/-- C10 counterexample: a 3-dimensional signed-integer array (shape
`(1, 1, 2)`).  The normalization succeeds but returns an array of shape
`(1, 1)` — two dimensions, not one: only one mean over the last axis is
taken. -/
theorem c10_counterexample :
    (normalize_audio ⟨[1, 1, 2], [0, 0], .int (-128) 127⟩).map (fun y => y.shape)
      = .ok [1, 1]
    ∧ ([1, 1] : List Nat).length = 2 := ⟨rfl, rfl⟩

/-- C10 (amended): for an input array of integer or floating dtype (with
positive dimensions), normalization succeeds, returns a float32 array all of
whose elements lie in `[-1, 1]`, and reduces exactly one axis when the input
has more than one dimension — so the result is one-dimensional precisely when
the input has one or two dimensions; any other dtype fails with a
`TypeError`. -/
theorem c10_amended (x : NDArray) (hpos : ∀ d ∈ x.shape, 0 < d) :
    (∀ name, x.dtype = .other name →
      normalize_audio x = .error ("Unsupported dtype: " ++ name))
    ∧ (x.dtype = .float ∨ (∃ lo hi, x.dtype = .int lo hi) →
      ∃ y, normalize_audio x = .ok y
        ∧ y.dtype = .float
        ∧ (∀ v ∈ y.data, -1 ≤ v ∧ v ≤ 1)
        ∧ y.shape = (if 1 < x.shape.length then x.shape.dropLast else x.shape)
        ∧ ((x.shape.length = 1 ∨ x.shape.length = 2) → y.shape.length = 1)) := by
  constructor
  · intro name hname
    unfold normalize_audio
    rw [hname]
  · intro hnum
    have hdims : ∀ (z : NDArray),
        z.shape = (if 1 < x.shape.length then x.shape.dropLast else x.shape) →
        (x.shape.length = 1 ∨ x.shape.length = 2) → z.shape.length = 1 := by
      intro z hz hcases
      rw [hz]
      rcases hcases with h1 | h2
      · simp [h1]
      · rw [if_pos (by omega)]
        simp [List.length_dropLast, h2]
    have hcore : ∃ ydata, normalize_audio x = .ok (normalizeFinish x.shape ydata true) := by
      rcases hnum with hf | ⟨lo, hi, hint⟩
      · exact ⟨_, by unfold normalize_audio; rw [hf]⟩
      · by_cases hlo : lo < 0
        · exact ⟨_, by unfold normalize_audio; rw [hint]; simp only [if_pos hlo]; rfl⟩
        · exact ⟨_, by unfold normalize_audio; rw [hint]; simp only [if_neg hlo]; rfl⟩
    obtain ⟨ydata, hok⟩ := hcore
    obtain ⟨h1, h2, h3⟩ := normalizeFinish_props x.shape ydata hpos
    exact ⟨normalizeFinish x.shape ydata true, hok, h1, h2, h3, hdims _ h3⟩

/-- C10 witness: a 2×2 signed-integer array normalizes to a one-dimensional
result. -/
theorem c10_amended_witness :
    (normalize_audio ⟨[2, 2], [1, 1, 0, 0], .int (-128) 127⟩).isOk = true
    ∧ (normalize_audio ⟨[2, 2], [1, 1, 0, 0], .int (-128) 127⟩).map (fun y => y.shape)
        = .ok [2] := by
  obtain ⟨y, hy, hdt, hb, hsh, hdim⟩ :=
    (c10_amended ⟨[2, 2], [1, 1, 0, 0], .int (-128) 127⟩ (by decide)).2
      (Or.inr ⟨-128, 127, rfl⟩)
  rw [hy]
  refine ⟨rfl, ?_⟩
  simp only [Except.map]
  rw [hsh]
  rfl
